import Mathlib

/-!
Verification of `src/main.py` of the repository: a sequential fine-tuning
orchestration script.  The script parses a `--model` flag (choices
`base`/`unsloth`), logs in to the model hub, selects a model identifier and a
loader function by mode, selects a dataset source and a processing function by
mode, builds an SFT trainer with fixed hyperparameters, trains and saves, and
finally releases memory.

The embedding below models each external library call as an observable event.
A run of `main` is driven by an oracle `ok : Step → Bool` telling which
external call returns normally; the run's trace lists the calls that complete,
in program order, and the step whose exception propagates out of `main`, if
any.  The `__main__` block (argument parsing and the working-directory change)
is modelled by `runScript`.
-/

namespace MainPy

/-- Loader functions imported from `trainer.load_model` (main.py line 6). -/
inductive Loader
  | load_model_and_tokenizer
  | load_unsloth_model_and_tokenizer
deriving DecidableEq

/-- Dataset processing functions imported from `data_processing.load_data`
(main.py line 8). -/
inductive DatasetProc
  | load_and_prepare_unsloth_dataset
  | load_and_process_dataset
deriving DecidableEq

/-- Observable pipeline events of one run of `main` (main.py lines 31-86):
the hub login, the model load (with the chosen identifier and loader), the
dataset load (with the chosen source and processing function), trainer
construction (with its fixed hyperparameters), the train-and-save call, and
the final memory cleanup (`del trainer`, `gc.collect()`,
`torch.cuda.empty_cache()`). -/
inductive Event
  | user_login
  | load_model (base_model : String) (load_func : Loader)
  | load_dataset (dataset_name : String) (proc : DatasetProc)
  | create_trainer (num_train_epochs : Nat) (push_to_hub : Bool)
  | train_and_save (new_model : String) (push_to_hub : Bool)
  | cleanup
deriving DecidableEq

/-- POSIX `os.path.join` restricted to the relative, non-empty components the
script passes it (main.py lines 43 and 62): the components are joined with a
slash separator. -/
def os_path_join (parts : List String) : String :=
  String.intercalate "/" parts

/-- Value of `embedding_model_name` (main.py line 42). -/
def embedding_model_name : String := "sentence-transformers/all-mpnet-base-v2"

/-- Value of `db_directory` (main.py line 43): `os.path.join("..", "chroma_db")`. -/
def db_directory : String := os_path_join ["..", "chroma_db"]

/-- Branch at main.py lines 47-54: `if model_type == "base"` selects the base
model identifier together with the standard loader, and any other value of
`model_type` (including `None`, modelled as `none`, since `None == "base"` is
false in Python) selects the quantized identifier together with the unsloth
loader. -/
def model_choice (model_type : Option String) : String × Loader :=
  if model_type = some "base" then
    ("meta-llama/Meta-Llama-3-8B-Instruct", Loader.load_model_and_tokenizer)
  else
    ("unsloth/Meta-Llama-3.1-8B-bnb-4bit", Loader.load_unsloth_model_and_tokenizer)

/-- Branch at main.py lines 61-68: `if (model_type == "base")` selects the
local JSON dataset path `os.path.join("..", "data", "train",
"mrd3_dataset.json")` processed by `load_and_process_dataset`, and any other
value selects the public dataset `"yahma/alpaca-cleaned"` processed by
`load_and_prepare_unsloth_dataset`. -/
def dataset_choice (model_type : Option String) : String × DatasetProc :=
  if model_type = some "base" then
    (os_path_join ["..", "data", "train", "mrd3_dataset.json"],
      DatasetProc.load_and_process_dataset)
  else
    ("yahma/alpaca-cleaned", DatasetProc.load_and_prepare_unsloth_dataset)

/-- Python f-string rendering of the optional `model_type` value as used at
main.py line 56: formatting `None` yields the text `"None"`, formatting a
string yields the string itself. -/
def py_format (v : Option String) : String :=
  match v with
  | none => "None"
  | some s => s

/-- Value of `new_model` (main.py line 56):
`f"stf-{model_type}-Llama-3-8B-Instruct"`. -/
def new_model (model_type : Option String) : String :=
  "stf-" ++ py_format model_type ++ "-Llama-3-8B-Instruct"

/-- External library calls made by `main` that can raise: `user_login`
(line 38), the model loader call (line 58), the dataset loader call
(line 64 or 68), `create_SFT_trainer` (line 76) and `train_and_save_model`
(line 80). -/
inductive Step
  | login
  | loadModel
  | loadData
  | createTrainer
  | trainSave
deriving DecidableEq

/-- Execution of `main` (main.py lines 31-86) under an oracle `ok` telling
which external call returns normally.  The trace lists the pipeline events
that complete, in program order; the second component is the step whose
exception propagates uncaught out of `main`, if any.  `main` contains no
try/except, so the first raising call ends the run and every later statement
(including the cleanup at lines 83-86) is skipped. -/
def runMain (model_type : Option String) (ok : Step → Bool) :
    List Event × Option Step :=
  if ok Step.login then
    let t1 := [Event.user_login]
    if ok Step.loadModel then
      let mc := model_choice model_type
      let t2 := t1 ++ [Event.load_model mc.1 mc.2]
      if ok Step.loadData then
        let dc := dataset_choice model_type
        let t3 := t2 ++ [Event.load_dataset dc.1 dc.2]
        if ok Step.createTrainer then
          let t4 := t3 ++ [Event.create_trainer 1 true]
          if ok Step.trainSave then
            (t4 ++ [Event.train_and_save (new_model model_type) true,
                    Event.cleanup], none)
          else (t4, some Step.trainSave)
        else (t3, some Step.createTrainer)
      else (t2, some Step.loadData)
    else (t1, some Step.loadModel)
  else ([], some Step.login)

/-- Accepted values of the `--model` option (main.py line 93). -/
def model_choices : List String := ["base", "unsloth"]

/-- Argparse handling of the single `--model` option (main.py lines 92-94).
The option is not required, so an omitted option parses to `None`; a supplied
value is accepted exactly when it is among the declared choices, and otherwise
`parse_args` reports an invalid-choice error and the process exits before
anything else runs. -/
def parse_args (model_arg : Option String) : Except String (Option String) :=
  match model_arg with
  | none => Except.ok none
  | some v =>
      if v ∈ model_choices then Except.ok (some v)
      else Except.error ("argument --model: invalid choice: " ++ v)

/-- Outcome of one invocation of the script (main.py lines 89-105):
whether argument parsing failed, whether `os.chdir` was performed, the
working directory in effect when `main` is entered, and the run of `main`
itself (empty when parsing failed). -/
structure ScriptRun where
  parse_error : Bool
  chdir_performed : Bool
  workdir_at_main : String
  events : List Event
  raised : Option Step

/-- Execution of the `__main__` block (main.py lines 89-105): parse the
`--model` argument; on failure exit at once (no chdir, no call of `main`);
on success change the working directory to the script's directory exactly
when the current working directory differs from it (lines 100-101), then run
`main`. -/
def runScript (model_arg : Option String) (cwd script_dir : String)
    (ok : Step → Bool) : ScriptRun :=
  match parse_args model_arg with
  | Except.error _ =>
      { parse_error := true, chdir_performed := false,
        workdir_at_main := cwd, events := [], raised := none }
  | Except.ok m =>
      let r := runMain m ok
      if cwd = script_dir then
        { parse_error := false, chdir_performed := false,
          workdir_at_main := cwd, events := r.1, raised := r.2 }
      else
        { parse_error := false, chdir_performed := true,
          workdir_at_main := script_dir, events := r.1, raised := r.2 }

/-- First pipeline step, in program order, whose external call fails under
`ok`; `none` when every call returns normally. -/
def first_failing (ok : Step → Bool) : Option Step :=
  if ok Step.login then
    if ok Step.loadModel then
      if ok Step.loadData then
        if ok Step.createTrainer then
          if ok Step.trainSave then none
          else some Step.trainSave
        else some Step.createTrainer
      else some Step.loadData
    else some Step.loadModel
  else some Step.login

/-- Events that access the model or the dataset: a model load or a dataset
load. -/
def is_access (e : Event) : Bool :=
  match e with
  | Event.load_model _ _ => true
  | Event.load_dataset _ _ => true
  | _ => false

/-- Oracle under which every external call returns normally. -/
def all_ok : Step → Bool := fun _ => true

/-- Resolution of a relative path against a working directory (POSIX): the
path names the file reached from that directory. -/
def resolve_relative (cwd p : String) : String :=
  cwd ++ "/" ++ p

/-- Evaluation of the joined dataset path of main.py line 62. -/
theorem os_path_join_dataset :
    os_path_join ["..", "data", "train", "mrd3_dataset.json"] =
      "../data/train/mrd3_dataset.json" := by
  decide

/-- Evaluation of the joined vector-store path of main.py line 43. -/
theorem os_path_join_chroma : os_path_join ["..", "chroma_db"] = "../chroma_db" := by
  decide

/-- C1: in every run with mode `base`, the model-load call receives the base
identifier `meta-llama/Meta-Llama-3-8B-Instruct` and the loader
`load_model_and_tokenizer`, and in every run with mode `unsloth` it receives
the quantized identifier `unsloth/Meta-Llama-3.1-8B-bnb-4bit` and the loader
`load_unsloth_model_and_tokenizer`; when no call fails, the model-load call
with exactly those arguments does occur. -/
theorem mode_selects_model_and_loader : ∀ (ok : Step → Bool),
    (∀ bm lf, Event.load_model bm lf ∈ (runMain (some "base") ok).1 →
      bm = "meta-llama/Meta-Llama-3-8B-Instruct" ∧
      lf = Loader.load_model_and_tokenizer) ∧
    (∀ bm lf, Event.load_model bm lf ∈ (runMain (some "unsloth") ok).1 →
      bm = "unsloth/Meta-Llama-3.1-8B-bnb-4bit" ∧
      lf = Loader.load_unsloth_model_and_tokenizer) ∧
    (first_failing ok = none →
      Event.load_model "meta-llama/Meta-Llama-3-8B-Instruct"
          Loader.load_model_and_tokenizer ∈ (runMain (some "base") ok).1 ∧
      Event.load_model "unsloth/Meta-Llama-3.1-8B-bnb-4bit"
          Loader.load_unsloth_model_and_tokenizer ∈ (runMain (some "unsloth") ok).1) := by
  intro ok
  cases h1 : ok Step.login <;> cases h2 : ok Step.loadModel <;>
    cases h3 : ok Step.loadData <;> cases h4 : ok Step.createTrainer <;>
    cases h5 : ok Step.trainSave <;>
    simp_all [runMain, first_failing, model_choice, dataset_choice]

/-- C2: in every run with mode `base`, the dataset-load call receives the
fixed relative path `../data/train/mrd3_dataset.json` and the processing
function `load_and_process_dataset`, and in every run with mode `unsloth` it
receives the public dataset `yahma/alpaca-cleaned` and
`load_and_prepare_unsloth_dataset`; when no call fails, the dataset-load call
with exactly those arguments does occur. -/
theorem mode_selects_dataset_and_processing : ∀ (ok : Step → Bool),
    os_path_join ["..", "data", "train", "mrd3_dataset.json"] =
      "../data/train/mrd3_dataset.json" ∧
    (∀ dn p, Event.load_dataset dn p ∈ (runMain (some "base") ok).1 →
      dn = "../data/train/mrd3_dataset.json" ∧
      p = DatasetProc.load_and_process_dataset) ∧
    (∀ dn p, Event.load_dataset dn p ∈ (runMain (some "unsloth") ok).1 →
      dn = "yahma/alpaca-cleaned" ∧
      p = DatasetProc.load_and_prepare_unsloth_dataset) ∧
    (first_failing ok = none →
      Event.load_dataset "../data/train/mrd3_dataset.json"
          DatasetProc.load_and_process_dataset ∈ (runMain (some "base") ok).1 ∧
      Event.load_dataset "yahma/alpaca-cleaned"
          DatasetProc.load_and_prepare_unsloth_dataset
            ∈ (runMain (some "unsloth") ok).1) := by
  intro ok
  cases h1 : ok Step.login <;> cases h2 : ok Step.loadModel <;>
    cases h3 : ok Step.loadData <;> cases h4 : ok Step.createTrainer <;>
    cases h5 : ok Step.trainSave <;>
    simp_all [runMain, first_failing, model_choice, dataset_choice,
      os_path_join_dataset]

/-- C3: in every run of main, whatever the mode, any trainer construction
receives exactly `num_train_epochs = 1` and `push_to_hub = true`, any
train-and-save call receives `push_to_hub = true`, and when no call fails
both calls do occur with those arguments. -/
theorem trainer_fixed_hyperparameters : ∀ (mt : Option String) (ok : Step → Bool),
    (∀ ep p, Event.create_trainer ep p ∈ (runMain mt ok).1 → ep = 1 ∧ p = true) ∧
    (∀ nm p, Event.train_and_save nm p ∈ (runMain mt ok).1 → p = true) ∧
    (first_failing ok = none →
      Event.create_trainer 1 true ∈ (runMain mt ok).1 ∧
      Event.train_and_save (new_model mt) true ∈ (runMain mt ok).1) := by
  intro mt ok
  cases h1 : ok Step.login <;> cases h2 : ok Step.loadModel <;>
    cases h3 : ok Step.loadData <;> cases h4 : ok Step.createTrainer <;>
    cases h5 : ok Step.trainSave <;>
    simp_all [runMain, first_failing]

/-- C4: any `--model` value outside the declared choices is rejected by
argument parsing, and the rejected run performs no event at all (no login,
no model load, no dataset load), no directory change, and raises no pipeline
step. -/
theorem invalid_model_choice_rejected_at_parse :
    ∀ (v cwd script_dir : String) (ok : Step → Bool),
    v ∉ model_choices →
    (runScript (some v) cwd script_dir ok).parse_error = true ∧
    (runScript (some v) cwd script_dir ok).events = [] ∧
    (runScript (some v) cwd script_dir ok).chdir_performed = false ∧
    (runScript (some v) cwd script_dir ok).raised = none := by
  intro v cwd sd ok hv
  simp [runScript, parse_args, hv]

/-- Witness for C4 at the concrete rejected value `orpo`. -/
theorem invalid_model_choice_rejected_at_parse_witness :
    (runScript (some "orpo") "/home" "/app/src" all_ok).parse_error = true ∧
    (runScript (some "orpo") "/home" "/app/src" all_ok).events = [] ∧
    (runScript (some "orpo") "/home" "/app/src" all_ok).chdir_performed = false ∧
    (runScript (some "orpo") "/home" "/app/src" all_ok).raised = none :=
  invalid_model_choice_rejected_at_parse "orpo" "/home" "/app/src" all_ok (by decide)

/-- C5: in every run of main, any model-access or data-access event lies
strictly after the hub login: the trace starts with the login event and the
access event lies in its tail. -/
theorem login_precedes_model_and_data_access :
    ∀ (mt : Option String) (ok : Step → Bool) (e : Event),
    e ∈ (runMain mt ok).1 → is_access e = true →
    ∃ t, (runMain mt ok).1 = Event.user_login :: t ∧ e ∈ t := by
  intro mt ok e hmem hacc
  cases h1 : ok Step.login <;> cases h2 : ok Step.loadModel <;>
    cases h3 : ok Step.loadData <;> cases h4 : ok Step.createTrainer <;>
    cases h5 : ok Step.trainSave <;>
    simp_all [runMain, is_access] <;>
    rcases hmem with rfl | h <;> simp_all [is_access]

/-- Witness for C5 at a concrete successful run and its model-load event. -/
theorem login_precedes_model_and_data_access_witness :
    ∃ t, (runMain (some "base") all_ok).1 = Event.user_login :: t ∧
      Event.load_model "meta-llama/Meta-Llama-3-8B-Instruct"
        Loader.load_model_and_tokenizer ∈ t :=
  login_precedes_model_and_data_access (some "base") all_ok
    (Event.load_model "meta-llama/Meta-Llama-3-8B-Instruct"
      Loader.load_model_and_tokenizer)
    (by decide) (by decide)

/-- C6: the memory cleanup executes in a run of main exactly when the
train-and-save call returns normally, and in particular when that call
raises, the cleanup is skipped. -/
theorem cleanup_iff_train_returns_normally : ∀ (mt : Option String) (ok : Step → Bool),
    (Event.cleanup ∈ (runMain mt ok).1 ↔
      Event.train_and_save (new_model mt) true ∈ (runMain mt ok).1) ∧
    (ok Step.trainSave = false → Event.cleanup ∉ (runMain mt ok).1) := by
  intro mt ok
  cases h1 : ok Step.login <;> cases h2 : ok Step.loadModel <;>
    cases h3 : ok Step.loadData <;> cases h4 : ok Step.createTrainer <;>
    cases h5 : ok Step.trainSave <;>
    simp_all [runMain]

/-- C7: main performs no local handling, retry or recovery: the exception
propagating out of main is exactly the first failing step, a run that raises
never reaches the final cleanup, and no call is ever repeated (the trace has
no duplicate events). -/
theorem failures_propagate_uncaught : ∀ (mt : Option String) (ok : Step → Bool),
    (runMain mt ok).2 = first_failing ok ∧
    ((runMain mt ok).2 ≠ none → Event.cleanup ∉ (runMain mt ok).1) ∧
    (runMain mt ok).1.Nodup := by
  intro mt ok
  cases h1 : ok Step.login <;> cases h2 : ok Step.loadModel <;>
    cases h3 : ok Step.loadData <;> cases h4 : ok Step.createTrainer <;>
    cases h5 : ok Step.trainSave <;>
    simp_all [runMain, first_failing]

/-- C8: the single mode value consistently determines both branches: the
model branch picks the base pair exactly when the mode is `base`, the dataset
branch picks the local JSON pair exactly when the mode is `base`, and hence
the standard loader is chosen exactly when the retrieval-based dataset
processing is chosen — no crossed combination can occur. -/
theorem single_mode_determines_both_branches : ∀ (mt : Option String),
    (model_choice mt =
        ("meta-llama/Meta-Llama-3-8B-Instruct", Loader.load_model_and_tokenizer)
      ↔ mt = some "base") ∧
    (dataset_choice mt =
        ("../data/train/mrd3_dataset.json", DatasetProc.load_and_process_dataset)
      ↔ mt = some "base") ∧
    ((model_choice mt).2 = Loader.load_model_and_tokenizer
      ↔ (dataset_choice mt).2 = DatasetProc.load_and_process_dataset) := by
  intro mt
  by_cases hmt : mt = some "base"
  · simp [model_choice, dataset_choice, hmt, os_path_join_dataset]
  · simp [model_choice, dataset_choice, hmt]

/-- C9: an invocation that omits `--model` parses successfully to `None`, the
run proceeds (no parse error), and it takes the unsloth model and dataset
path while naming the saved model `stf-None-Llama-3-8B-Instruct`. -/
theorem omitted_model_flag_defaults_to_unsloth :
    parse_args none = Except.ok none ∧
    new_model none = "stf-None-Llama-3-8B-Instruct" ∧
    model_choice none =
      ("unsloth/Meta-Llama-3.1-8B-bnb-4bit", Loader.load_unsloth_model_and_tokenizer) ∧
    dataset_choice none =
      ("yahma/alpaca-cleaned", DatasetProc.load_and_prepare_unsloth_dataset) ∧
    (runScript none "/w" "/s" all_ok).parse_error = false ∧
    Event.train_and_save "stf-None-Llama-3-8B-Instruct" true
      ∈ (runScript none "/w" "/s" all_ok).events ∧
    Event.load_model "unsloth/Meta-Llama-3.1-8B-bnb-4bit"
      Loader.load_unsloth_model_and_tokenizer
        ∈ (runScript none "/w" "/s" all_ok).events ∧
    Event.load_dataset "yahma/alpaca-cleaned"
      DatasetProc.load_and_prepare_unsloth_dataset
        ∈ (runScript none "/w" "/s" all_ok).events :=
  ⟨rfl, by decide, by decide, by decide, rfl, by decide, by decide, by decide⟩

/-- C10: whenever parsing succeeds, the working directory in effect when main
is entered is the script's directory, the chdir happens exactly when the
invocation directory differs from it, and consequently the two fixed relative
paths resolve against the script's directory regardless of the invocation
directory. -/
theorem workdir_is_script_dir_at_main :
    ∀ (m : Option String) (cwd script_dir : String) (ok : Step → Bool),
    (runScript m cwd script_dir ok).parse_error = false →
    (runScript m cwd script_dir ok).workdir_at_main = script_dir ∧
    ((runScript m cwd script_dir ok).chdir_performed = true ↔ cwd ≠ script_dir) ∧
    resolve_relative (runScript m cwd script_dir ok).workdir_at_main
        (dataset_choice (some "base")).1
      = resolve_relative script_dir "../data/train/mrd3_dataset.json" ∧
    resolve_relative (runScript m cwd script_dir ok).workdir_at_main db_directory
      = resolve_relative script_dir "../chroma_db" := by
  intro m cwd sd ok h
  have hds : (dataset_choice (some "base")).1 = "../data/train/mrd3_dataset.json" := by
    simp [dataset_choice, os_path_join_dataset]
  have hdb : db_directory = "../chroma_db" := by
    simp [db_directory, os_path_join_chroma]
  match hm : m with
  | none =>
    by_cases hcs : cwd = sd <;> simp_all [runScript, parse_args, resolve_relative]
  | some v =>
    by_cases hv : v ∈ model_choices <;> by_cases hcs : cwd = sd <;>
      simp_all [runScript, parse_args, resolve_relative]

/-- Witness for C10 at a concrete invocation from a different directory. -/
theorem workdir_is_script_dir_at_main_witness :
    (runScript (some "base") "/home/user" "/srv/app" all_ok).workdir_at_main = "/srv/app" ∧
    ((runScript (some "base") "/home/user" "/srv/app" all_ok).chdir_performed = true
      ↔ "/home/user" ≠ "/srv/app") ∧
    resolve_relative
        (runScript (some "base") "/home/user" "/srv/app" all_ok).workdir_at_main
        (dataset_choice (some "base")).1
      = resolve_relative "/srv/app" "../data/train/mrd3_dataset.json" ∧
    resolve_relative
        (runScript (some "base") "/home/user" "/srv/app" all_ok).workdir_at_main
        db_directory
      = resolve_relative "/srv/app" "../chroma_db" :=
  workdir_is_script_dir_at_main (some "base") "/home/user" "/srv/app" all_ok (by decide)

end MainPy

